import Mathlib

/-!
Verification development for the kandabrian/mpesa-stk payment-initiation relay.

The repository contains one main implementation (src/server.js) together with
three near-duplicate drafts of the same service (src/unnamed/part_001,
part_002, part_003).  The definitions below are shallow embeddings, translated
function by function from those files.  Where a definition comes from a draft
rather than from src/server.js its name carries the suffix 002 or 003 (the
part it comes from); part_001 agrees with src/server.js on every embedded
function, so it is not duplicated.

External library behaviour (the express JSON body parser, axios, Buffer) is
modelled as follows: a parsed JSON body is a JVal; an outbound HTTP call is an
Effect or a trace event, with its outcome supplied as an explicit parameter;
Buffer.from(s).toString with base64 is implemented as RFC 4648 base64 over the
byte values of the string (all inputs involved are ASCII).  Clock reads
(new Date(), Date.now()) are explicit parameters: each distinct read in the
source is a distinct parameter.
-/

namespace MpesaStk

/-- JSON values as delivered by the express JSON body parser.  JSON cannot
contain NaN or undefined, so num carries an ordinary rational; an absent
object property is represented by Option at use sites. -/
inductive JVal where
  | null : JVal
  | bool (b : Bool) : JVal
  | num (q : ℚ) : JVal
  | str (s : String) : JVal
  | arr (xs : List JVal) : JVal
  | obj (fields : List (String × JVal)) : JVal

/-- Property access v.k on a JavaScript value: defined on objects, undefined
(none) elsewhere.  Parsed JSON objects have distinct keys, so taking the first
matching field is exact. -/
def jget : JVal → String → Option JVal
  | .obj fs, k => (fs.find? (fun p => p.1 == k)).map (fun p => p.2)
  | _, _ => none

/-- JavaScript truthiness of a JSON value: null, false, 0 and the empty string
are falsy, everything else representable in JSON is truthy. -/
def truthy : JVal → Bool
  | .null => false
  | .bool b => b
  | .num q => !(decide (q = 0))
  | .str s => !s.isEmpty
  | .arr _ => true
  | .obj _ => true

/-- Truthiness of a possibly-undefined value: undefined is falsy. -/
def truthyOpt : Option JVal → Bool
  | none => false
  | some v => truthy v

/-- JavaScript String(v) for the value shapes that reach it in this code base
(strings and integral numbers; the remaining cases are written out for
totality but are never produced by the verified properties; array joining and
decimal rendering of non-integral numbers are not modelled). -/
def jsToString : JVal → String
  | .str s => s
  | .num q => if q.den = 1 then toString q.num else toString q
  | .null => "null"
  | .bool true => "true"
  | .bool false => "false"
  | .arr _ => ""
  | .obj _ => "[object Object]"

/-- The replace of /\D/g with the empty string: keep only decimal digits. -/
def digitsOnly (s : String) : String :=
  String.mk (s.toList.filter Char.isDigit)

/-- JavaScript s.substring(0, n): the first n characters (clamped). -/
def substr (s : String) (n : ℕ) : String :=
  String.mk (s.toList.take n)

/-- Numeric value of a list of decimal digit characters. -/
def digitsToNat (ds : List Char) : ℕ :=
  ds.foldl (fun a c => 10 * a + (c.toNat - 48)) 0

/-- JavaScript parseFloat on a string: an optional sign, then the longest
prefix consisting of digits, an optional decimal point and more digits; NaN
(none) when no digit is consumed.  Leading whitespace and exponents are not
modelled (no input in this code base uses them). -/
def parseFloatStr (s : String) : Option ℚ :=
  let go : List Char → Option ℚ := fun cs =>
    let intDs := cs.takeWhile Char.isDigit
    let rest := cs.drop intDs.length
    let fracDs := match rest with
      | '.' :: r => r.takeWhile Char.isDigit
      | _ => []
    if intDs.isEmpty && fracDs.isEmpty then none
    else some ((digitsToNat intDs : ℚ) + (digitsToNat fracDs : ℚ) / (10 : ℚ) ^ fracDs.length)
  match s.toList with
  | '-' :: r => (go r).map (fun q => -q)
  | '+' :: r => go r
  | cs => go cs

/-- JavaScript parseFloat applied to a JSON value, as in parseFloat(amount):
numbers pass through, strings are parsed, the other shapes coerce to NaN
(none).  NaN is represented by none throughout. -/
def parseFloat : JVal → Option ℚ
  | .num q => some q
  | .str s => parseFloatStr s
  | _ => none

/-- The comparison amountNum < 1 of src/server.js line 187 under JavaScript
NaN semantics: NaN compared with anything is false. -/
def jltOne : Option ℤ → Bool
  | none => false
  | some x => decide (x < 1)

/-- The guard isNaN(amountNum) or amountNum < 1 of part_003 line 115. -/
def nanOrLtOne : Option ℤ → Bool
  | none => true
  | some x => decide (x < 1)

/-- The strict inequality data.ResponseCode !== "0" of part_003 line 160:
false exactly when the value is the string "0". -/
def strictNeqStr (v : Option JVal) (s : String) : Bool :=
  match v with
  | some (.str t) => t != s
  | _ => true

/-- The JavaScript expression a || b where a may be undefined: b when a is
undefined or falsy. -/
def orJS (a : Option JVal) (b : JVal) : JVal :=
  match a with
  | some v => if truthy v then v else b
  | none => b

/-- The JavaScript expression err.response?.status || 500 of part_003 line
179: the default when the status is absent or the falsy number 0. -/
def orFalsyNat (a : Option ℕ) (d : ℕ) : ℕ :=
  match a with
  | some 0 => d
  | some s => s
  | none => d

/-- The environment configuration read from process.env (the part used by the
embedded operations): SHORTCODE, PASSKEY, CALLBACK_URL, APP_SERVER_URL. -/
structure Env where
  shortCode : String
  passKey : String
  callbackUrl : String
  appServerUrl : String
deriving DecidableEq

/-- The standard base64 alphabet used by Buffer.toString with base64. -/
def b64Chars : List Char :=
  "ABCDEFGHIJKLMNOPQRSTUVWXYZabcdefghijklmnopqrstuvwxyz0123456789+/".toList

/-- The base64 digit for a six-bit value. -/
def b64Char (n : ℕ) : Char := b64Chars.getD n '='

/-- RFC 4648 base64 of a byte list, three bytes to four digits with padding,
as produced by Buffer.toString with base64. -/
def base64Chunks : List ℕ → List Char
  | [] => []
  | [a] => [b64Char (a / 4), b64Char (a % 4 * 16), '=', '=']
  | [a, b] => [b64Char (a / 4), b64Char (a % 4 * 16 + b / 16), b64Char (b % 16 * 4), '=']
  | a :: b :: c :: rest =>
      b64Char (a / 4) :: b64Char (a % 4 * 16 + b / 16) ::
      b64Char (b % 16 * 4 + c / 64) :: b64Char (c % 64) :: base64Chunks rest

/-- Base64 encoding of a byte list as a string. -/
def base64Encode (bytes : List ℕ) : String := String.mk (base64Chunks bytes)

/-- The bytes Buffer.from(s) produces for the strings of this code base,
which are all ASCII, so one byte per character. -/
def strBytes (s : String) : List ℕ := s.toList.map Char.toNat

/-- generatePassword of src/server.js lines 127-131: the base64 encoding of
SHORTCODE ++ PASSKEY ++ timestamp. -/
def generatePassword (env : Env) (timestamp : String) : String :=
  base64Encode (strBytes (env.shortCode ++ env.passKey ++ timestamp))

/-- generateTimestamp of src/server.js lines 123-125 applied to the ISO
string of one clock read: strip every non-digit and keep the first 14
characters. -/
def generateTimestamp (iso : String) : String :=
  String.mk ((iso.toList.filter Char.isDigit).take 14)

/-- The tokenCache global of src/server.js line 99.  In the source both
fields start as null and the expiry is only read when the token is present;
the expiry is therefore carried as a plain integer (milliseconds) with
initial value 0. -/
structure TokenCache where
  token : Option String
  expiry : ℤ
deriving DecidableEq

/-- The lifetime the gateway advertises for a bearer credential, in
milliseconds: 3599 seconds, as hardcoded in the expires_in field of the
GET /token responses (part_002 line 255, part_003 line 281) and in the
comment at part_002 line 68. -/
def advertisedLifetimeMs : ℤ := 3599 * 1000

/-- getAccessToken of src/server.js lines 101-120 as a state transformer:
given the cache, the Date.now() read and the token the gateway would return,
it yields the returned token, the new cache and whether a network fetch to
the authentication endpoint occurred.  A cached token is served when
expiry > now; otherwise the fetched token is stored with expiry
now + 3590 * 1000. -/
def getAccessToken (c : TokenCache) (now : ℤ) (fetched : String) :
    String × TokenCache × Bool :=
  match c.token with
  | some t =>
      if now < c.expiry then (t, c, false)
      else (fetched, ⟨some fetched, now + 3590 * 1000⟩, true)
  | none => (fetched, ⟨some fetched, now + 3590 * 1000⟩, true)

/-- getAccessToken of part_002 lines 46-78: identical to the src/server.js
version except that the stored expiry is now + 3599 * 1000, the full
advertised lifetime. -/
def getAccessToken002 (c : TokenCache) (now : ℤ) (fetched : String) :
    String × TokenCache × Bool :=
  match c.token with
  | some t =>
      if now < c.expiry then (t, c, false)
      else (fetched, ⟨some fetched, now + 3599 * 1000⟩, true)
  | none => (fetched, ⟨some fetched, now + 3599 * 1000⟩, true)

/-- The mpesaPayload object of src/server.js lines 201-213 (the part_003
payload at lines 129-141 is identical). -/
structure MpesaPayload where
  businessShortCode : String
  password : String
  timestamp : String
  transactionType : String
  amount : Option ℤ
  partyA : String
  partyB : String
  phoneNumber : String
  callBackURL : String
  accountReference : String
  transactionDesc : String

/-- Construction of the outbound push request of src/server.js lines
201-213: the password is derived from the same timestamp placed in the
Timestamp field, AccountReference is description.substring(0, 12) and
TransactionDesc is description.substring(0, 13).  The amount is an Option
because the NaN produced by a non-numeric amount reaches this point in
src/server.js. -/
def mpesaPayload (env : Env) (timestamp : String) (phoneStr : String)
    (amountNum : Option ℤ) (description : String) : MpesaPayload :=
  { businessShortCode := env.shortCode
    password := generatePassword env timestamp
    timestamp := timestamp
    transactionType := "CustomerPayBillOnline"
    amount := amountNum
    partyA := phoneStr
    partyB := env.shortCode
    phoneNumber := phoneStr
    callBackURL := env.callbackUrl
    accountReference := substr description 12
    transactionDesc := substr description 13 }

/-- The mpesaRequest object of part_002 lines 137-149.  Differences from
src/server.js: the amount is parseFloat without Math.floor (so a rational),
the phone is used raw, and TransactionDesc is the description with no
truncation. -/
structure StkRequest002 where
  businessShortCode : String
  password : String
  timestamp : String
  transactionType : String
  amount : ℚ
  partyA : String
  partyB : String
  phoneNumber : String
  callBackURL : String
  accountReference : String
  transactionDesc : String

/-- Construction of the outbound push request of part_002 lines 137-149. -/
def mpesaRequest002 (env : Env) (timestamp : String) (phone : String)
    (amountNum : ℚ) (description : String) : StkRequest002 :=
  { businessShortCode := env.shortCode
    password := generatePassword env timestamp
    timestamp := timestamp
    transactionType := "CustomerPayBillOnline"
    amount := amountNum
    partyA := phone
    partyB := env.shortCode
    phoneNumber := phone
    callBackURL := env.callbackUrl
    accountReference := substr description 12
    transactionDesc := description }

/-- The body of the status query POST of part_003 lines 248-260, and of
part_002 lines 281-300. -/
structure StatusRequest where
  businessShortCode : String
  password : String
  timestamp : String
  checkoutRequestID : String

/-- The status query of part_003 lines 241-260: one timestamp is read
(generateTimestamp), and the password is derived from that same value. -/
def statusRequest003 (env : Env) (iso : String) (checkoutId : String) :
    StatusRequest :=
  let timestamp := generateTimestamp iso
  { businessShortCode := env.shortCode
    password := generatePassword env timestamp
    timestamp := timestamp
    checkoutRequestID := checkoutId }

/-- The status query of part_002 lines 281-300: the Password field is built
from one new Date() read (lines 286-289) and the Timestamp field from a
second, separate new Date() read (lines 291-294), so the two fields are
derived from two distinct clock reads iso1 and iso2. -/
def statusRequest002 (env : Env) (iso1 iso2 : String) (checkoutId : String) :
    StatusRequest :=
  { businessShortCode := env.shortCode
    password := base64Encode (strBytes
      (env.shortCode ++ env.passKey ++ generateTimestamp iso1))
    timestamp := generateTimestamp iso2
    checkoutRequestID := checkoutId }

/-- The externally visible outbound effects of a /pay invocation: the call
into getAccessToken (which performs the authentication fetch when the cache
is cold) and the push POST to the gateway. -/
inductive Effect where
  | getToken
  | stkPush (payload : MpesaPayload)

/-- Outcome of the awaited axios.post to the push endpoint: a 2xx response
with its parsed JSON body, or a throw (HTTP error status when a response
arrived, none for a network error or timeout). -/
inductive PushOutcome where
  | success (data : JVal)
  | failure (status : Option ℕ)

/-- The JSON error or success envelope a /pay handler sends: HTTP status,
the success discriminator, the error field and the CheckoutRequestID field
(each as present in the body). -/
structure PayResponse where
  status : ℕ
  success : Bool
  error : Option JVal
  checkoutRequestID : Option JVal

/-- The push-and-respond tail of src/server.js lines 193-239, reached after
validation: it calls getAccessToken, builds the payload from one timestamp
read, posts it, and answers 200 success with the CheckoutRequestID of the
response body, or 500 with error "STK push failed." from the catch block.
The synchronous ResponseCode of the body is not inspected. -/
def serverPaySend (env : Env) (iso : String) (phoneStr : String)
    (amountNum : Option ℤ) (d : String) (outcome : PushOutcome) :
    List Effect × PayResponse :=
  ([Effect.getToken,
    Effect.stkPush (mpesaPayload env (generateTimestamp iso) phoneStr amountNum d)],
   match outcome with
   | .success data => ⟨200, true, none, jget data "CheckoutRequestID"⟩
   | .failure _ => ⟨500, false, some (.str "STK push failed."), none⟩)

/-- The /pay handler of src/server.js lines 176-241.  Inputs are the
destructured body fields phone, amount and description (undefined when the
key is absent), the ISO string of the clock read and the outcome of the
outbound push.  Validation: a falsy phone or amount gives 400 missing-field;
then amountNum is Math.floor(parseFloat(amount)) and amountNum < 1 gives 400
amount-too-low (false for NaN, which therefore passes).  A present
non-string description throws at substring inside the try, after the token
call, landing in the catch (500). -/
def serverPay (env : Env) (iso : String) (phone amount description : Option JVal)
    (outcome : PushOutcome) : List Effect × PayResponse :=
  if !truthyOpt phone || !truthyOpt amount then
    ([], ⟨400, false, some (.str "Phone and amount are required."), none⟩)
  else
    let phoneStr := digitsOnly (jsToString (phone.getD .null))
    let amountNum := (parseFloat (amount.getD .null)).map Rat.floor
    if jltOne amountNum then
      ([], ⟨400, false, some (.str "Amount must be at least 1."), none⟩)
    else
      match description with
      | some (.str s) => serverPaySend env iso phoneStr amountNum s outcome
      | none => serverPaySend env iso phoneStr amountNum "Vumbua Deposit" outcome
      | some _ => ([Effect.getToken], ⟨500, false, some (.str "STK push failed."), none⟩)

/-- The phone pattern of part_003 line 107, the regular expression that
anchors 254, then 1 or 7, then exactly eight digits. -/
def phoneRegexOk (s : String) : Bool :=
  let cs := s.toList
  cs.length == 12 && cs.take 3 == ['2', '5', '4'] &&
    (cs.getD 3 ' ' == '1' || cs.getD 3 ' ' == '7') &&
    (cs.drop 4).all Char.isDigit

/-- The response part_003 lines 157-176 computes from the synchronous 2xx
gateway body: 502 with success false when data.ResponseCode !== "0" (the
error field is data.ResponseDescription || "STK push rejected"), otherwise
200 success with the CheckoutRequestID. -/
def part003PushAck (data : JVal) : PayResponse :=
  if strictNeqStr (jget data "ResponseCode") "0" then
    ⟨502, false, some (orJS (jget data "ResponseDescription") (.str "STK push rejected")), none⟩
  else
    ⟨200, true, none, jget data "CheckoutRequestID"⟩

/-- The push-and-respond tail of part_003 lines 119-183: as in
src/server.js, but the synchronous ResponseCode is checked via
part003PushAck, and the catch answers err.response?.status || 500 (the error
message assembled there from the gateway body is not used by any verified
property and is abstracted as an absent field). -/
def part003Send (env : Env) (iso : String) (phoneStr : String)
    (amountNum : Option ℤ) (d : String) (outcome : PushOutcome) :
    List Effect × PayResponse :=
  ([Effect.getToken,
    Effect.stkPush (mpesaPayload env (generateTimestamp iso) phoneStr amountNum d)],
   match outcome with
   | .success data => part003PushAck data
   | .failure s => ⟨orFalsyNat s 500, false, none, none⟩)

/-- The /pay handler of part_003 lines 91-184.  Differences from
src/server.js: the normalized phone must match the 254 pattern, and the
amount guard is isNaN(amountNum) || amountNum < 1, which rejects NaN. -/
def part003Pay (env : Env) (iso : String) (phone amount description : Option JVal)
    (outcome : PushOutcome) : List Effect × PayResponse :=
  if !truthyOpt phone || !truthyOpt amount then
    ([], ⟨400, false, some (.str "Phone and amount are required."), none⟩)
  else
    let phoneStr := digitsOnly (jsToString (phone.getD .null))
    if !phoneRegexOk phoneStr then
      ([], ⟨400, false, some (.str "Invalid phone. Use format: 2547XXXXXXXX or 2541XXXXXXXX"), none⟩)
    else
      let amountNum := (parseFloat (amount.getD .null)).map Rat.floor
      if nanOrLtOne amountNum then
        ([], ⟨400, false, some (.str "Amount must be at least 1."), none⟩)
      else
        match description with
        | some (.str s) => part003Send env iso phoneStr amountNum s outcome
        | none => part003Send env iso phoneStr amountNum "Vumbua Deposit" outcome
        | some _ => ([Effect.getToken], ⟨500, false, none, none⟩)

/-- Outcome of the awaited downstream forward inside a callback handler. -/
inductive ForwardOutcome where
  | delivered
  | failed
  | timedOut

/-- Externally visible events of one callback invocation, in program order:
the JSON response sent to the gateway (HTTP status, ResultCode, ResultDesc),
the start of the forward POST with its target and body, and the settled
forward result. -/
inductive CbEvent where
  | respond (status : ℕ) (resultCode : ℤ) (resultDesc : String)
  | forwardAttempt (target : String) (body : JVal)
  | forwardResult (ok : Bool)

/-- Trace of the /callback handler of src/server.js lines 244-271: the fixed
acknowledgement is sent first (res.json at line 253, status 200), then the
raw payload is posted to APP_SERVER_URL/mpesa/callback inside its own
try/catch, whose failure is only logged. -/
def serverCallback (env : Env) (payload : JVal) (outcome : ForwardOutcome) :
    List CbEvent :=
  [CbEvent.respond 200 0 "Success",
   CbEvent.forwardAttempt (env.appServerUrl ++ "/mpesa/callback") payload] ++
  (match outcome with
   | .delivered => [CbEvent.forwardResult true]
   | .failed => [CbEvent.forwardResult false]
   | .timedOut => [CbEvent.forwardResult false])

/-- Trace of the /callback handler of part_002 lines 209-247: it extracts
fields only for logging, performs no forward, and responds the fixed
acknowledgement on both the normal path and the catch path. -/
def part002Callback (_env : Env) (_payload : JVal) : List CbEvent :=
  [CbEvent.respond 200 0 "Success"]

/-- Trace of the /callback handler of part_003 lines 192-235: the forward to
APP_SERVER_URL/mpesa/callback is awaited first (lines 215-225), and only
then is the acknowledgement sent (line 228); the outer catch also ends in
the acknowledgement. -/
def part003Callback (env : Env) (payload : JVal) (outcome : ForwardOutcome) :
    List CbEvent :=
  [CbEvent.forwardAttempt (env.appServerUrl ++ "/mpesa/callback") payload] ++
  (match outcome with
   | .delivered => [CbEvent.forwardResult true]
   | .failed => [CbEvent.forwardResult false]
   | .timedOut => [CbEvent.forwardResult false]) ++
  [CbEvent.respond 200 0 "Success"]

/-- The responses present in a callback trace. -/
def responsesOf (tr : List CbEvent) : List (ℕ × ℤ × String) :=
  tr.filterMap (fun e => match e with
    | .respond s c d => some (s, c, d)
    | _ => none)

/-- The bodies the callback handler forwarded downstream. -/
def forwardedBodies (tr : List CbEvent) : List JVal :=
  tr.filterMap (fun e => match e with
    | .forwardAttempt _ b => some b
    | _ => none)

/-- The metadata item list of a callback payload, as read by part_003 line
205: payload?.Body.stkCallback.CallbackMetadata?.Item || [], the empty list
when the chain is broken or the Item field is not an array. -/
def callbackItems (payload : JVal) : List JVal :=
  match ((((jget payload "Body").bind (fun v => jget v "stkCallback")).bind
      (fun v => jget v "CallbackMetadata")).bind (fun v => jget v "Item")) with
  | some (.arr xs) => xs
  | _ => []

/-- items.find of part_003 lines 206-208: the Value field of the first item
whose Name field is exactly the given string. -/
def findItemValue (nm : String) (items : List JVal) : Option JVal :=
  (items.find? (fun i => match jget i "Name" with
    | some (.str s) => s == nm
    | _ => false)).bind (fun i => jget i "Value")

/-- Progress of one concurrent caller through getAccessToken on the shared
event loop.  Everything between two awaits runs atomically, and the function
has exactly one await (the axios.get to the authentication endpoint), so a
caller is either before its cache check (ready), suspended on its own
in-flight fetch (waiting), or returned (finished). -/
inductive CallerPhase where
  | ready
  | waiting
  | finished
deriving DecidableEq

/-- Shared state of the event-loop system: the tokenCache global, the phase
of each concurrent caller, and how many authentication fetches have been
issued so far. -/
structure AuthSys where
  cache : TokenCache
  phases : List CallerPhase
  authCalls : ℕ

/-- One scheduler step giving caller i its next atomic slice of
getAccessToken (src/server.js lines 101-120).  A ready caller checks the
cache: on a hit (token present and expiry > now) it returns at once; on a
miss it issues its own fetch (counted) and suspends.  A waiting caller
resumes when its response arrives, stores the token with expiry
now + 3590 * 1000, and returns. -/
def authStep (now : ℤ) (tok : String) (s : AuthSys) (i : ℕ) : AuthSys :=
  match s.phases.get? i with
  | some .ready =>
      match s.cache.token with
      | some _ =>
          if now < s.cache.expiry then
            { s with phases := s.phases.set i .finished }
          else
            { s with phases := s.phases.set i .waiting, authCalls := s.authCalls + 1 }
      | none =>
          { s with phases := s.phases.set i .waiting, authCalls := s.authCalls + 1 }
  | some .waiting =>
      { cache := ⟨some tok, now + 3590 * 1000⟩,
        phases := s.phases.set i .finished,
        authCalls := s.authCalls }
  | _ => s

/-- Run a schedule, a list of caller indices, each occurrence granting that
caller its next step. -/
def authRun (now : ℤ) (tok : String) (s : AuthSys) (sched : List ℕ) : AuthSys :=
  sched.foldl (authStep now tok) s

/-- The system at a cold start: empty cache and k callers about to enter
getAccessToken. -/
def coldStart (k : ℕ) : AuthSys :=
  ⟨⟨none, 0⟩, List.replicate k .ready, 0⟩

/-- Number of callers still before their cache check. -/
def readyCount : List CallerPhase → ℕ
  | [] => 0
  | .ready :: t => readyCount t + 1
  | _ :: t => readyCount t

/-- A concrete configuration used to instantiate theorems: the sandbox
short code, a pass key, and the two public URLs of the deployment. -/
def envC : Env :=
  ⟨"174379", "bfb2key", "https://kandabrian-mpesa-stk.hf.space/callback",
   "https://app.example"⟩

/-- A concrete clock read. -/
def isoC : String := "2025-01-01T12:00:00.000Z"

/-- A concrete synchronous gateway body whose ResponseCode is nonzero. -/
def rejBody : JVal :=
  .obj [("ResponseCode", .str "1"), ("ResponseDescription", .str "Rejected"),
        ("CheckoutRequestID", .str "ws_CO_77")]

/-- A concrete callback payload. -/
def samplePayload : JVal :=
  .obj [("Body", .obj [("stkCallback",
    .obj [("CheckoutRequestID", .str "ws_CO_42"), ("ResultCode", .num 0)])])]

/-- A concrete successful callback payload whose metadata carries the item
with Name Amount and Value 500. -/
def payload500 : JVal :=
  .obj [("Body", .obj [("stkCallback", .obj [
    ("CheckoutRequestID", .str "ws_CO_42"),
    ("ResultCode", .num 0),
    ("ResultDesc", .str "The service request is processed successfully."),
    ("CallbackMetadata", .obj [("Item", .arr [
      .obj [("Name", .str "Amount"), ("Value", .num 500)],
      .obj [("Name", .str "MpesaReceiptNumber"), ("Value", .str "NLJ7RT61SV")]])])])])]

theorem readyCount_set_of_ready (l : List CallerPhase) (i : ℕ) (v : CallerPhase)
    (hl : l.get? i = some .ready) (hv : v ≠ .ready) :
    readyCount (l.set i v) + 1 = readyCount l := by
  induction l generalizing i with
  | nil => simp at hl
  | cons a t ih =>
    cases i with
    | zero =>
      simp only [List.get?] at hl
      cases hl
      cases v with
      | ready => exact absurd rfl hv
      | waiting => simp [readyCount]
      | finished => simp [readyCount]
    | succ j =>
      simp only [List.get?] at hl
      have h := ih j hl
      cases a with
      | ready => simp [readyCount, List.set, h]
      | waiting => simpa [readyCount, List.set] using h
      | finished => simpa [readyCount, List.set] using h

theorem readyCount_set_of_not_ready (l : List CallerPhase) (i : ℕ) (w v : CallerPhase)
    (hl : l.get? i = some w) (hw : w ≠ .ready) (hv : v ≠ .ready) :
    readyCount (l.set i v) = readyCount l := by
  induction l generalizing i with
  | nil => simp at hl
  | cons a t ih =>
    cases i with
    | zero =>
      simp only [List.get?] at hl
      cases hl
      cases v with
      | ready => exact absurd rfl hv
      | waiting => cases w with
        | ready => exact absurd rfl hw
        | waiting => simp [readyCount]
        | finished => simp [readyCount]
      | finished => cases w with
        | ready => exact absurd rfl hw
        | waiting => simp [readyCount]
        | finished => simp [readyCount]
    | succ j =>
      simp only [List.get?] at hl
      have h := ih j hl
      cases a with
      | ready => simp [readyCount, List.set, h]
      | waiting => simpa [readyCount, List.set] using h
      | finished => simpa [readyCount, List.set] using h

theorem authStep_measure (now : ℤ) (tok : String) (s : AuthSys) (i : ℕ) :
    (authStep now tok s i).authCalls + readyCount (authStep now tok s i).phases ≤
      s.authCalls + readyCount s.phases := by
  unfold authStep
  cases hp : s.phases.get? i with
  | none => simp
  | some ph =>
    cases ph with
    | ready =>
      cases hc : s.cache.token with
      | some t =>
        by_cases hn : now < s.cache.expiry
        · simp only [hn, if_true]
          have := readyCount_set_of_ready s.phases i .finished hp (by simp)
          omega
        · simp only [hn, if_false]
          have := readyCount_set_of_ready s.phases i .waiting hp (by simp)
          omega
      | none =>
        have := readyCount_set_of_ready s.phases i .waiting hp (by simp)
        simp only [hc]
        omega
    | waiting =>
      have := readyCount_set_of_not_ready s.phases i .waiting .finished hp (by simp) (by simp)
      simp only []
      omega
    | finished => simp

theorem authRun_measure (now : ℤ) (tok : String) (sched : List ℕ) (s : AuthSys) :
    (authRun now tok s sched).authCalls + readyCount (authRun now tok s sched).phases ≤
      s.authCalls + readyCount s.phases := by
  induction sched generalizing s with
  | nil => simp [authRun]
  | cons a t ih =>
    have h1 := ih (authStep now tok s a)
    have h2 := authStep_measure now tok s a
    calc (authRun now tok s (a :: t)).authCalls +
          readyCount (authRun now tok s (a :: t)).phases
        = (authRun now tok (authStep now tok s a) t).authCalls +
          readyCount (authRun now tok (authStep now tok s a) t).phases := rfl
      _ ≤ (authStep now tok s a).authCalls + readyCount (authStep now tok s a).phases := h1
      _ ≤ s.authCalls + readyCount s.phases := h2

theorem readyCount_replicate (k : ℕ) :
    readyCount (List.replicate k .ready) = k := by
  induction k with
  | zero => rfl
  | succ n ih => simp [List.replicate, readyCount, ih]

/-- C1: for every inbound callback payload and every downstream forward
outcome (success, failure or timeout), the /callback handler of
src/server.js responds exactly once, with HTTP 200 and the fixed body with
ResultCode 0 and ResultDesc Success, and the cited part_002 handler does the
same; no internal outcome reaches the response. -/
theorem c1_callback_always_acks (env : Env) (payload : JVal) (outcome : ForwardOutcome) :
    responsesOf (serverCallback env payload outcome) = [(200, 0, "Success")] ∧
    responsesOf (part002Callback env payload) = [(200, 0, "Success")] := by
  cases outcome <;> exact ⟨rfl, rfl⟩

/-- C2: evaluated at a concrete callback invocation, the part_003 /callback
handler awaits the downstream forward before sending the acknowledgement
(its trace puts the forward attempt and its settled result ahead of the
respond event), while src/server.js sends the acknowledgement first; so the
claim that the acknowledgement always precedes the forward is violated by
the part_003 variant, against its own comments and the spec. -/
theorem c2_part003_forward_precedes_ack :
    part003Callback envC samplePayload .timedOut =
      [CbEvent.forwardAttempt (envC.appServerUrl ++ "/mpesa/callback") samplePayload,
       CbEvent.forwardResult false,
       CbEvent.respond 200 0 "Success"] ∧
    serverCallback envC samplePayload .timedOut =
      [CbEvent.respond 200 0 "Success",
       CbEvent.forwardAttempt (envC.appServerUrl ++ "/mpesa/callback") samplePayload,
       CbEvent.forwardResult false] :=
  ⟨rfl, rfl⟩

/-- C3 counterexample: the part_002 getAccessToken, cited by the claim,
stores an expiry exactly equal to the gateway-advertised lifetime end, not
strictly earlier, so the safety-margin half of the claim fails on it. -/
theorem c3_part002_no_expiry_margin :
    (getAccessToken002 ⟨none, 0⟩ 0 "tok").2.1.expiry = 0 + advertisedLifetimeMs ∧
    ¬ ((getAccessToken002 ⟨none, 0⟩ 0 "tok").2.1.expiry < 0 + advertisedLifetimeMs) := by
  decide

/-- C3 amended: getAccessToken serves the cache exactly when a token is
present and now is strictly before the tracked expiry (and then leaves the
cache untouched); on a refresh src/server.js stores expiry now + 3590 s, a
9 second margin inside the advertised 3599 s lifetime, while the part_002
variant stores expiry at exactly the advertised lifetime with no margin. -/
theorem c3_token_cache_amended (c : TokenCache) (now : ℤ) (f : String) :
    ((getAccessToken c now f).2.2 = false ↔ c.token.isSome = true ∧ now < c.expiry) ∧
    ((getAccessToken c now f).2.2 = false → (getAccessToken c now f).2.1 = c) ∧
    ((getAccessToken c now f).2.2 = true →
      (getAccessToken c now f).2.1.expiry = now + 3590 * 1000) ∧
    now + 3590 * 1000 < now + advertisedLifetimeMs ∧
    advertisedLifetimeMs - 3590 * 1000 = 9 * 1000 ∧
    ((getAccessToken002 c now f).2.2 = true →
      (getAccessToken002 c now f).2.1.expiry = now + advertisedLifetimeMs) := by
  cases hc : c.token <;> by_cases hn : now < c.expiry <;>
    simp [getAccessToken, getAccessToken002, advertisedLifetimeMs, hc, hn]

theorem c3_token_cache_amended_witness :
    (getAccessToken ⟨some "t", 10⟩ 3 "f").2.1 = ⟨some "t", 10⟩ ∧
    (getAccessToken ⟨none, 0⟩ 7 "f").2.1.expiry = 7 + 3590 * 1000 ∧
    (getAccessToken002 ⟨none, 0⟩ 7 "f").2.1.expiry = 7 + advertisedLifetimeMs :=
  ⟨(c3_token_cache_amended ⟨some "t", 10⟩ 3 "f").2.1 (by decide),
   (c3_token_cache_amended ⟨none, 0⟩ 7 "f").2.2.1 (by decide),
   (c3_token_cache_amended ⟨none, 0⟩ 7 "f").2.2.2.2.2 (by decide)⟩

/-- C4 counterexample: a /pay request whose push call resolves with a 2xx
body carrying the nonzero ResponseCode "1" is answered by src/server.js
with HTTP 200 and success true, because that handler never inspects the
synchronous ResponseCode; the claim requires a 502/500 error response
there. -/
theorem c4_serverjs_ignores_response_code :
    strictNeqStr (jget rejBody "ResponseCode") "0" = true ∧
    (serverPay envC isoC (some (.str "254712345678")) (some (.num 5)) none
      (.success rejBody)).2.success = true ∧
    (serverPay envC isoC (some (.str "254712345678")) (some (.num 5)) none
      (.success rejBody)).2.status = 200 :=
  ⟨rfl, rfl, rfl⟩

/-- C4 amended: only the part_003 variant checks the synchronous
ResponseCode: its /pay answers with part003PushAck, which is 502 with
success false whenever the body ResponseCode is not the string "0", and a
200 success acknowledgement only when it is; src/server.js instead returns
200 success for any 2xx gateway body regardless of ResponseCode. -/
theorem c4_response_code_amended (env : Env) (iso : String) (data : JVal) :
    ((part003Pay env iso (some (.str "254712345678")) (some (.num 5)) none
        (.success data)).2 = part003PushAck data) ∧
    (strictNeqStr (jget data "ResponseCode") "0" = true →
      (part003PushAck data).status = 502 ∧ (part003PushAck data).success = false) ∧
    (strictNeqStr (jget data "ResponseCode") "0" = false →
      (part003PushAck data).status = 200 ∧ (part003PushAck data).success = true) ∧
    ((serverPay env iso (some (.str "254712345678")) (some (.num 5)) none
        (.success data)).2 = ⟨200, true, none, jget data "CheckoutRequestID"⟩) := by
  refine ⟨rfl, ?_, ?_, rfl⟩
  · intro h
    simp [part003PushAck, h]
  · intro h
    simp [part003PushAck, h]

theorem c4_response_code_amended_witness :
    strictNeqStr (jget rejBody "ResponseCode") "0" = true ∧
    (part003PushAck rejBody).status = 502 ∧
    (part003PushAck rejBody).success = false ∧
    (part003Pay envC isoC (some (.str "254712345678")) (some (.num 5)) none
      (.success rejBody)).2 = part003PushAck rejBody :=
  ⟨rfl,
   ((c4_response_code_amended envC isoC rejBody).2.1 rfl).1,
   ((c4_response_code_amended envC isoC rejBody).2.1 rfl).2,
   (c4_response_code_amended envC isoC rejBody).1⟩

/-- C5: evaluated at the failing input, a /pay request with phone present
and the non-numeric amount "abc": in src/server.js the amount becomes NaN,
the guard NaN < 1 is false, and the handler proceeds to the token call and
the outbound push carrying Amount NaN, answering from the push outcome
instead of a 400; the part_003 variant implements the intended isNaN guard
and rejects the same input with 400 and no outbound call. -/
theorem c5_nan_amount_reaches_gateway :
    ((serverPay envC isoC (some (.str "254712345678")) (some (.str "abc")) none
        (.failure none)).1 =
      [Effect.getToken,
       Effect.stkPush (mpesaPayload envC (generateTimestamp isoC) "254712345678"
         none "Vumbua Deposit")]) ∧
    ((serverPay envC isoC (some (.str "254712345678")) (some (.str "abc")) none
        (.failure none)).2.status = 500) ∧
    ((part003Pay envC isoC (some (.str "254712345678")) (some (.str "abc")) none
        (.failure none)).1 = []) ∧
    ((part003Pay envC isoC (some (.str "254712345678")) (some (.str "abc")) none
        (.failure none)).2.status = 400) ∧
    ((part003Pay envC isoC (some (.str "254712345678")) (some (.str "abc")) none
        (.failure none)).2.error = some (.str "Amount must be at least 1.")) :=
  ⟨rfl, rfl, rfl, rfl, rfl⟩

/-- C6 counterexample: two concurrent /pay callers that both pass their
cache check while the cache is cold (schedule 0, 1, 0, 1) each issue their
own authentication call, so two calls occur where the claim requires
exactly one. -/
theorem c6_two_concurrent_auth_calls :
    (authRun 5 "tok" (coldStart 2) [0, 1, 0, 1]).authCalls = 2 ∧
    (authRun 5 "tok" (coldStart 2) [0, 1, 0, 1]).authCalls ≠ 1 := by
  decide

/-- C6 amended: getAccessToken has no single-flight guard, so the number of
authentication calls is bounded by the number of cold callers rather than
being one: every caller whose cache check runs before a refresh has been
stored issues its own call; a serialized execution (schedule 0, 0, 1, 1)
performs exactly one call because the second caller hits the refreshed
cache, while simultaneous checks (schedule 0, 1, 0, 1) perform one call per
caller. -/
theorem c6_auth_calls_amended (now : ℤ) (tok : String) (k : ℕ) (sched : List ℕ) :
    (authRun now tok (coldStart k) sched).authCalls ≤ k ∧
    (authRun 5 "tok" (coldStart 2) [0, 0, 1, 1]).authCalls = 1 ∧
    (authRun 5 "tok" (coldStart 2) [0, 1, 0, 1]).authCalls = 2 := by
  refine ⟨?_, by decide, by decide⟩
  have h := authRun_measure now tok sched (coldStart k)
  have hc : (coldStart k).authCalls = 0 := rfl
  have hp : readyCount (coldStart k).phases = k := readyCount_replicate k
  omega

/-- C7 counterexample: in the part_002 status endpoint the password and the
Timestamp field come from two separate clock reads; when the two reads
straddle a second boundary the Password is not the encoding of
shortCode ++ passKey ++ Timestamp, refuting the claim for that cited
StatusReconciler. -/
theorem c7_part002_status_password_mismatch :
    (statusRequest002 envC "2025-01-01T23:59:59.999Z" "2025-01-02T00:00:00.000Z"
        "ws_CO_9").password ≠
      base64Encode (strBytes (envC.shortCode ++ envC.passKey ++
        (statusRequest002 envC "2025-01-01T23:59:59.999Z" "2025-01-02T00:00:00.000Z"
          "ws_CO_9").timestamp)) := by
  decide

/-- C7 amended: the /pay payload of src/server.js, the part_003 status
query, and the part_002 push request each derive their Password from the
very timestamp string placed in their Timestamp field; the part_002 status
query satisfies the property exactly when its two clock reads coincide. -/
theorem c7_password_timestamp_amended (env : Env) (ts phoneStr cid iso d : String)
    (amountNum : Option ℤ) (a : ℚ) :
    ((mpesaPayload env ts phoneStr amountNum d).password =
      base64Encode (strBytes (env.shortCode ++ env.passKey ++
        (mpesaPayload env ts phoneStr amountNum d).timestamp))) ∧
    ((statusRequest003 env iso cid).password =
      base64Encode (strBytes (env.shortCode ++ env.passKey ++
        (statusRequest003 env iso cid).timestamp))) ∧
    ((statusRequest002 env iso iso cid).password =
      base64Encode (strBytes (env.shortCode ++ env.passKey ++
        (statusRequest002 env iso iso cid).timestamp))) ∧
    ((mpesaRequest002 env ts phoneStr a d).password =
      base64Encode (strBytes (env.shortCode ++ env.passKey ++
        (mpesaRequest002 env ts phoneStr a d).timestamp))) :=
  ⟨rfl, rfl, rfl, rfl⟩

/-- C8 counterexample: the part_002 push request, cited by the claim, sends
the description untruncated as TransactionDesc, so a twenty-character
description yields a TransactionDesc of length 20, above the claimed
thirteen-character bound. -/
theorem c8_part002_transaction_desc_untruncated :
    ((mpesaRequest002 envC "20250101120000" "254712345678" 50
        "ABCDEFGHIJKLMNOPQRST").transactionDesc.length = 20) ∧
    ¬ ((mpesaRequest002 envC "20250101120000" "254712345678" 50
        "ABCDEFGHIJKLMNOPQRST").transactionDesc.length ≤ 13) := by
  decide

/-- C8 amended: src/server.js (and part_003) truncate AccountReference to
the first 12 and TransactionDesc to the first 13 characters of the
description, whereas part_002 truncates only AccountReference and sends the
description whole as TransactionDesc; in all variants over-long
descriptions are truncated rather than rejected, and the /pay response does
not depend on the description, so the caller is never told. -/
theorem c8_truncation_amended (env : Env) (ts phoneStr : String) (a : Option ℤ)
    (a2 : ℚ) (d iso : String) (phone amount : Option JVal) (outcome : PushOutcome)
    (d1 d2 : String) :
    ((mpesaPayload env ts phoneStr a d).accountReference = substr d 12) ∧
    ((mpesaPayload env ts phoneStr a d).transactionDesc = substr d 13) ∧
    ((mpesaPayload env ts phoneStr a d).accountReference.length ≤ 12) ∧
    ((mpesaPayload env ts phoneStr a d).transactionDesc.length ≤ 13) ∧
    ((mpesaRequest002 env ts phoneStr a2 d).accountReference = substr d 12) ∧
    ((mpesaRequest002 env ts phoneStr a2 d).transactionDesc = d) ∧
    ((serverPay env iso phone amount (some (.str d1)) outcome).2 =
      (serverPay env iso phone amount (some (.str d2)) outcome).2) := by
  refine ⟨rfl, rfl, ?_, ?_, rfl, rfl, ?_⟩
  · show (d.toList.take 12).length ≤ 12
    simp [List.length_take]
  · show (d.toList.take 13).length ≤ 13
    simp [List.length_take]
  · simp only [serverPay]
    split
    · rfl
    · split
      · rfl
      · cases outcome <;> rfl

/-- C9: for every callback payload and forward outcome, the body the
src/server.js handler (and the part_003 handler) forwards downstream is the
inbound payload itself, unmodified; hence when the payload carries the
metadata item with Name Amount and Value 500, the forwarded body carries
exactly that value, with no conversion. -/
theorem c9_forward_raw_payload (env : Env) (payload : JVal) (outcome : ForwardOutcome) :
    forwardedBodies (serverCallback env payload outcome) = [payload] ∧
    forwardedBodies (part003Callback env payload outcome) = [payload] ∧
    (findItemValue "Amount" (callbackItems payload) = some (.num 500) →
      ∀ q, q ∈ forwardedBodies (serverCallback env payload outcome) →
        findItemValue "Amount" (callbackItems q) = some (.num 500)) := by
  refine ⟨?_, ?_, ?_⟩
  · cases outcome <;> rfl
  · cases outcome <;> rfl
  · intro h q hq
    have he : forwardedBodies (serverCallback env payload outcome) = [payload] := by
      cases outcome <;> rfl
    rw [he] at hq
    simp only [List.mem_singleton] at hq
    subst hq
    exact h

theorem c9_forward_raw_payload_witness :
    findItemValue "Amount" (callbackItems payload500) = some (.num 500) ∧
    (∀ q, q ∈ forwardedBodies (serverCallback envC payload500 .delivered) →
      findItemValue "Amount" (callbackItems q) = some (.num 500)) :=
  ⟨rfl, (c9_forward_raw_payload envC payload500 .delivered).2.2 rfl⟩

/-- C10: whenever the phone or the amount field of a /pay body is falsy as
a JavaScript value (absent, null, the number 0, the empty string, or
false), src/server.js classifies the request as a missing-field failure and
answers 400 with the fixed message, performing no outbound call; in
particular amount 0 or phone 0 receive the missing-field message, not the
amount-too-low one. -/
theorem c10_falsy_missing_field (env : Env) (iso : String)
    (phone amount description : Option JVal) (outcome : PushOutcome)
    (h : truthyOpt phone = false ∨ truthyOpt amount = false) :
    serverPay env iso phone amount description outcome =
      ([], ⟨400, false, some (.str "Phone and amount are required."), none⟩) := by
  unfold serverPay
  rcases h with h | h <;> simp [h]

theorem c10_falsy_missing_field_witness :
    truthyOpt (some (JVal.num 0)) = false ∧
    truthyOpt (some (JVal.str "")) = false ∧
    truthyOpt (some JVal.null) = false ∧
    serverPay envC isoC (some (.str "254712345678")) (some (.num 0)) none
        (.failure none) =
      ([], ⟨400, false, some (.str "Phone and amount are required."), none⟩) ∧
    serverPay envC isoC (some (.str "254712345678")) (some (.str "")) none
        (.failure none) =
      ([], ⟨400, false, some (.str "Phone and amount are required."), none⟩) ∧
    serverPay envC isoC (some (.str "254712345678")) (some JVal.null) none
        (.failure none) =
      ([], ⟨400, false, some (.str "Phone and amount are required."), none⟩) ∧
    serverPay envC isoC (some (.num 0)) (some (.num 100)) none (.failure none) =
      ([], ⟨400, false, some (.str "Phone and amount are required."), none⟩) :=
  ⟨rfl, rfl, rfl,
   c10_falsy_missing_field envC isoC (some (.str "254712345678")) (some (.num 0))
     none (.failure none) (Or.inr rfl),
   c10_falsy_missing_field envC isoC (some (.str "254712345678")) (some (.str ""))
     none (.failure none) (Or.inr rfl),
   c10_falsy_missing_field envC isoC (some (.str "254712345678")) (some JVal.null)
     none (.failure none) (Or.inr rfl),
   c10_falsy_missing_field envC isoC (some (.num 0)) (some (.num 100))
     none (.failure none) (Or.inl rfl)⟩

end MpesaStk
